import Mathlib

/-!
Verification of the position monitor / dynamic stop-loss engine of the
`tg_signals` repository against its natural-language specification.

The Python sources are shallowly embedded below.  `decimal.Decimal`
arithmetic is modelled by exact rational arithmetic (`ℚ`): every constant
and computation appearing in the claims is exact well inside the default
28-significant-digit Decimal context, so no rounding is observable.
Symbols are `String`s, Python `set`s are `Finset String`s, Python `dict`s
are association lists with last-write-wins insertion (`dictInsert`), and
code paths whose only effect is writing to the process log are modelled as
having no observable effect (the claims are about in-memory state and the
notification queue, never about log lines).
-/

namespace TgSignals

/-- Truncation-toward-zero integer conversion of a rational quotient:
the semantics of Python `int(a // b)` on `Decimal` operands
(`Decimal.__floordiv__` truncates toward zero). -/
def decIntDiv (a b : ℚ) : ℤ :=
  if 0 ≤ a / b then ⌊a / b⌋ else ⌈a / b⌉

/-- One entry of the in-memory `active_positions` dict: the per-symbol
position record built by `get_active_positions`
(src/binance_futures_trader.py:616-635, src/dynamic_stop_loss.py:61-88).
`amount` is the signed position size (negative for shorts). -/
structure Position where
  amount : ℚ
  entry_price : ℚ
  current_stop_loss : ℚ
  unrealized_profit : ℚ
deriving DecidableEq, Repr

/-- `calculate_new_stop_loss` (src/binance_futures_trader.py:300-308,
src/dynamic_stop_loss.py:228-256):
`rise_times = int(price_change_percent // Decimal('10'))`,
`stop_loss_percent = Decimal('100') + rise_times * Decimal('5')`,
result `entry_price * (stop_loss_percent / Decimal('100'))`.
The surrounding try/except is dead for rational inputs: none of these
operations can raise, so the `entry_price * 0.95` fallback is unreachable. -/
def calculate_new_stop_loss (price_change_percent entry_price : ℚ) : ℚ :=
  let rise_times : ℤ := decIntDiv price_change_percent 10
  let stop_loss_percent : ℚ := 100 + (rise_times : ℚ) * 5
  entry_price * (stop_loss_percent / 100)

/-- The stop-loss decision as composed inside `handle_price_update`
(src/binance_futures_trader.py:258-259, src/dynamic_stop_loss.py:202-203):
a tick is considered only when `price_change_percent >= Decimal('10')`, in
which case `calculate_new_stop_loss` supplies the candidate stop price. -/
def stop_loss_candidate (price_change_percent entry_price : ℚ) : Option ℚ :=
  if 10 ≤ price_change_percent then
    some (calculate_new_stop_loss price_change_percent entry_price)
  else none

/-- Outcome of the REST calls made inside `update_stop_loss_order`:
`cancel_open_orders` followed by `new_order` for the replacement
STOP_MARKET order.  `rejectedAfterCancel` is the partial failure in which
the cancel succeeded but the venue rejected the new submission. -/
inductive OrderOutcome
  | filled
  | rejectedAfterCancel
deriving DecidableEq, Repr

/-- Messages the code puts on `message_queue` (src/binance_futures_trader.py).
`orderRejectedAlert` and `fatalGiveUpAlert` are the alert classes the spec
calls for; the constructors exist so that their absence can be stated —
no code path in the source ever constructs them. -/
inductive Msg
  | stopLossUpdate (new_stop : ℚ)
  | accountUpdate
  | wsDisconnect
  | wsReconnect
  | orderRejectedAlert
  | fatalGiveUpAlert
deriving DecidableEq, Repr

/-- `update_stop_loss_order` (src/binance_futures_trader.py:277-298): the
whole body — `cancel_open_orders`, `new_order`, `if not response: raise` —
is wrapped in `try/except Exception` whose handler only calls
`logging.error` and returns normally.  Hence for every outcome the caller
observes a normal return and no message is enqueued; the result below is
the list of messages the call puts on `message_queue`. -/
def update_stop_loss_order_msgs (_ : OrderOutcome) : List Msg := []

/-- `handle_price_update` (src/binance_futures_trader.py:243-275),
restricted to one symbol already present in `active_positions`, with the
REST outcome of the inner `update_stop_loss_order` call made explicit.
Returns the updated position record and the messages enqueued on
`message_queue`. -/
def handle_price_update (pos : Position) (current_price : ℚ)
    (outcome : OrderOutcome) : Position × List Msg :=
  let entry_price := pos.entry_price
  let current_stop_loss := pos.current_stop_loss
  let price_change_percent := (current_price - entry_price) / entry_price * 100
  if 10 ≤ price_change_percent then
    let new_stop_loss := calculate_new_stop_loss price_change_percent entry_price
    if current_stop_loss < new_stop_loss then
      ({ pos with current_stop_loss := new_stop_loss },
        update_stop_loss_order_msgs outcome ++ [Msg.stopLossUpdate new_stop_loss])
    else (pos, [])
  else (pos, [])

/-- A sequence of mark-price ticks for one symbol, processed in order by
`handle_price_update` with no interleaved registry refresh.  The in-memory
state transition of `handle_price_update` does not depend on the REST
outcome (see `update_stop_loss_order_msgs`), so the outcome is fixed. -/
def processTicks (pos : Position) (ticks : List ℚ) : Position :=
  ticks.foldl (fun p price => (handle_price_update p price OrderOutcome.filled).1) pos

/-- One raw entry of the position list returned by the exchange REST call
(`client.account()['positions']` in src/dynamic_stop_loss.py:64-65), with
the fields `get_active_positions` reads, already decoded to rationals. -/
structure RawPosition where
  symbol : String
  positionAmt : ℚ
  notional : ℚ
  unrealizedProfit : ℚ
deriving DecidableEq, Repr

/-- Python dict insertion `d[k] = v`: overwrite in place when the key
exists, append otherwise (insertion order preserved). -/
def dictInsert (m : List (String × Position)) (k : String) (v : Position) :
    List (String × Position) :=
  if m.any (fun kv => kv.1 = k) then
    m.map (fun kv => if kv.1 = k then (k, v) else kv)
  else m ++ [(k, v)]

/-- `get_active_positions` (src/dynamic_stop_loss.py:61-88).  The argument
is the result of the remote fetch: `Except.error` stands for any exception
raised while fetching or parsing (the whole body sits in one
`try/except Exception` returning `{}`).  On success, every position with
non-zero `positionAmt` is kept, the entry price is recovered as
`abs(notional / amount)` and the stop-loss is seeded at 95% of entry.
The same try/except-to-empty-dict shape appears in
src/binance_futures_trader.py:616-635 and src/bybit_futures_trader.py. -/
def get_active_positions (fetch : Except String (List RawPosition)) :
    List (String × Position) :=
  match fetch with
  | .error _ => []
  | .ok positions =>
      positions.foldl (fun acc position =>
        if position.positionAmt ≠ 0 then
          let entry_price := |position.notional / position.positionAmt|
          dictInsert acc position.symbol
            { amount := position.positionAmt
              entry_price := entry_price
              current_stop_loss := entry_price * (95 / 100)
              unrealized_profit := position.unrealizedProfit }
        else acc) []

/-- The transport calls issued by one run of
`update_websocket_subscriptions` (src/dynamic_stop_loss.py:90-117,
src/binance_futures_trader.py:181-199): one `unsubscribe` call per element
of `remove_symbols`, and a single `subscribe` call carrying all of
`new_symbols` iff that set is non-empty. -/
structure SubscriptionDiff where
  remove_symbols : Finset String
  new_symbols : Finset String
deriving DecidableEq

/-- `update_websocket_subscriptions` on its successful path:
`new_symbols = current_positions - monitored_symbols`,
`remove_symbols = monitored_symbols - current_positions`, unsubscribe the
former set member-wise, subscribe the latter in one call, then
`monitored_symbols := current_positions`.  Returns the issued diff and
the new value of `monitored_symbols`. -/
def update_websocket_subscriptions
    (current_positions monitored_symbols : Finset String) :
    SubscriptionDiff × Finset String :=
  let new_symbols := current_positions \ monitored_symbols
  let remove_symbols := monitored_symbols \ current_positions
  (⟨remove_symbols, new_symbols⟩, current_positions)

/-- Number of `unsubscribe` transport calls a diff produces (the source
loops, issuing one call per removed symbol). -/
def unsubscribe_call_count (d : SubscriptionDiff) : ℕ := d.remove_symbols.card

/-- Number of `subscribe` transport calls a diff produces (the source
issues a single call, guarded by `if new_symbols:`). -/
def subscribe_call_count (d : SubscriptionDiff) : ℕ :=
  if d.new_symbols.Nonempty then 1 else 0

/-- Key set of an `active_positions` dict. -/
def registry_symbols (m : List (String × Position)) : Finset String :=
  (m.map Prod.fst).toFinset

/-- The state owned by the `start_monitoring` polling loop
(src/dynamic_stop_loss.py:258-296). -/
structure MonitorLoopState where
  active_positions : List (String × Position)
  monitored_symbols : Finset String
deriving DecidableEq

/-- One iteration of the `start_monitoring` polling loop
(src/dynamic_stop_loss.py:276-289): fetch, compare with the previous
dict, and on any difference replace the registry wholesale and reconcile
subscriptions.  Returns the new state and the subscription calls issued. -/
def refresh_cycle (st : MonitorLoopState)
    (fetch : Except String (List RawPosition)) :
    MonitorLoopState × SubscriptionDiff :=
  let new_positions := get_active_positions fetch
  if new_positions ≠ st.active_positions then
    let r := update_websocket_subscriptions (registry_symbols new_positions)
      st.monitored_symbols
    (⟨new_positions, r.2⟩, r.1)
  else (st, ⟨∅, ∅⟩)

/-- `MAX_RECONNECT_ATTEMPTS` (src/traders/binance_futures_trader.py:16). -/
def MAX_RECONNECT_ATTEMPTS : ℕ := 10

/-- Result of one call to `_handle_ws_disconnection`
(src/traders/binance_futures_trader.py:132-145,
src/binance_futures_trader.py:131-149): either the give-up branch
(`count >= MAX_RECONNECT_ATTEMPTS`: log and return False, no attempt), or
a reconnect attempt numbered `attempt_number` made after sleeping
`delay` seconds. -/
inductive ReconnectStep
  | giveUp
  | attempt (delay : ℕ) (attempt_number : ℕ)
deriving DecidableEq, Repr

/-- `_handle_ws_disconnection` as a function of the current
`ws_reconnect_count`: the delay slept before the attempt is
`min(2 ** ws_reconnect_count, 300)`, computed *before* the counter is
incremented; the attempt is then logged as attempt number `count + 1`. -/
def handle_ws_disconnection (ws_reconnect_count : ℕ) : ReconnectStep :=
  if MAX_RECONNECT_ATTEMPTS ≤ ws_reconnect_count then .giveUp
  else .attempt (min (2 ^ ws_reconnect_count) 300) (ws_reconnect_count + 1)

/-- Connection-supervisor fields touched by `_start_ws_monitor`. -/
structure WsState where
  ws_reconnect_count : ℕ
  is_ws_connected : Bool
deriving DecidableEq, Repr

/-- Effect of a successful `_start_ws_monitor`
(src/binance_futures_trader.py:118-119,
src/traders/binance_futures_trader.py:107-108): the connected flag is set
and the reconnect counter is reset to 0. -/
def start_ws_monitor_success (st : WsState) : WsState :=
  { st with is_ws_connected := true, ws_reconnect_count := 0 }

/-- State of the `_monitor_ws_connection` supervisor loop
(src/traders/binance_futures_trader.py:146-176):
`disconnect_notified` models `disconnect_time is not None` (the one-shot
disconnect notification latch). -/
structure MonitorState where
  ws_reconnect_count : ℕ
  is_ws_connected : Bool
  disconnect_notified : Bool
deriving DecidableEq, Repr

/-- Whether the reconnect attempt inside one supervisor iteration (the
`_start_ws_monitor` call reached through `_handle_ws_disconnection`)
succeeds or raises. -/
inductive AttemptOutcome
  | success
  | failure
deriving DecidableEq, Repr

/-- One iteration of the `_monitor_ws_connection` loop
(src/traders/binance_futures_trader.py:146-176).  Returns the new state,
the messages enqueued on `message_queue`, and the number of reconnect
attempts initiated (0 or 1).  In the give-up branch
`_handle_ws_disconnection` only writes `logging.error` and returns False:
no attempt, no message. -/
def monitor_iteration (st : MonitorState) (heartbeat_ok : Bool)
    (outcome : AttemptOutcome) : MonitorState × List Msg × ℕ :=
  if heartbeat_ok ∧ st.is_ws_connected then
    ({ st with disconnect_notified := false }, [], 0)
  else
    let notice := if st.disconnect_notified then [] else [Msg.wsDisconnect]
    if MAX_RECONNECT_ATTEMPTS ≤ st.ws_reconnect_count then
      ({ st with disconnect_notified := true }, notice, 0)
    else
      match outcome with
      | .success =>
          (⟨0, true, false⟩, notice ++ [Msg.wsReconnect], 1)
      | .failure =>
          (⟨st.ws_reconnect_count + 1, false, true⟩, notice, 1)

/-- A run of consecutive `_monitor_ws_connection` iterations, collecting
all enqueued messages and the total number of reconnect attempts. -/
def monitor_run (st : MonitorState) :
    List (Bool × AttemptOutcome) → MonitorState × List Msg × ℕ
  | [] => (st, [], 0)
  | (hb, oc) :: rest =>
      let s1 := monitor_iteration st hb oc
      let s2 := monitor_run s1.1 rest
      (s2.1, s1.2.1 ++ s2.2.1, s1.2.2 + s2.2.2)

/-- `message_queue.put` for the queue created as `queue.Queue()` in
`__init__` (src/binance_futures_trader.py:22): `maxsize` defaults to 0,
i.e. the queue is unbounded, so `put` always appends at the tail, never
blocks and never discards an element. -/
def message_queue_put (q : List Msg) (m : Msg) : List Msg := q ++ [m]

/-- `message_queue.get_nowait` as drained by `process_message_queue`
(src/binance_futures_trader.py:637-650): removes and returns the oldest
message, or nothing when the queue is empty. -/
def message_queue_get_nowait : List Msg → Option (Msg × List Msg)
  | [] => none
  | m :: rest => some (m, rest)

/-! Helper lemmas -/

theorem decIntDiv_eq_floor (a b : ℚ) (h : 0 ≤ a / b) : decIntDiv a b = ⌊a / b⌋ :=
  if_pos h

theorem calculate_new_stop_loss_eq_floor_formula (price_change_percent entry_price : ℚ)
    (h : 0 ≤ price_change_percent) :
    calculate_new_stop_loss price_change_percent entry_price =
      entry_price * ((100 + 5 * (⌊price_change_percent / 10⌋ : ℚ)) / 100) := by
  unfold calculate_new_stop_loss
  rw [decIntDiv_eq_floor _ _ (div_nonneg h (by norm_num))]
  ring

theorem handle_price_update_stop_mono (pos : Position) (price : ℚ) (o : OrderOutcome) :
    pos.current_stop_loss ≤ (handle_price_update pos price o).1.current_stop_loss := by
  unfold handle_price_update
  dsimp only
  split_ifs with h1 h2 <;> simp
  exact le_of_lt h2

theorem processTicks_stop_mono (pos : Position) (ticks : List ℚ) :
    pos.current_stop_loss ≤ (processTicks pos ticks).current_stop_loss := by
  induction ticks generalizing pos with
  | nil => simp [processTicks]
  | cons t ts ih =>
      calc pos.current_stop_loss
          ≤ (handle_price_update pos t OrderOutcome.filled).1.current_stop_loss :=
            handle_price_update_stop_mono pos t OrderOutcome.filled
        _ ≤ (processTicks (handle_price_update pos t OrderOutcome.filled).1 ts).current_stop_loss :=
            ih _
        _ = (processTicks pos (t :: ts)).current_stop_loss := by
            simp [processTicks, List.foldl_cons]

/-! Claim theorems -/

/-- C2: for every sequence of price ticks processed for a position with no
interleaved registry refresh, `current_stop_loss` is monotonically
non-decreasing, and a single tick replaces the stop exactly when the tick
clears the 10% gate and its candidate stop is strictly greater than the
current stop; a candidate less than or equal to the current stop (ties and
pullbacks included) leaves it unchanged. -/
theorem stop_loss_ratchet_monotone (pos : Position) (ticks : List ℚ) :
    pos.current_stop_loss ≤ (processTicks pos ticks).current_stop_loss ∧
    ∀ price : ℚ, ∀ o : OrderOutcome,
      (handle_price_update pos price o).1.current_stop_loss =
        if 10 ≤ (price - pos.entry_price) / pos.entry_price * 100 ∧
           pos.current_stop_loss <
             calculate_new_stop_loss ((price - pos.entry_price) / pos.entry_price * 100)
               pos.entry_price
        then calculate_new_stop_loss ((price - pos.entry_price) / pos.entry_price * 100)
               pos.entry_price
        else pos.current_stop_loss := by
  refine ⟨processTicks_stop_mono pos ticks, ?_⟩
  intro price o
  unfold handle_price_update
  dsimp only
  split_ifs with h1 h2 h3 h4 <;> simp_all

/-- C3: the stop-loss policy yields no candidate when the price change is
below 10%, and otherwise the candidate
`entryPrice * (100 + 5 * floor(priceChangePercent / 10)) / 100`; at the
tier boundaries, 9.999% yields no update, 10% and 19.999% yield 105% of
entry, and 20% yields 110% of entry. -/
theorem stop_loss_tier_policy (entry_price price_change_percent : ℚ)
    (hentry : 0 < entry_price) :
    (price_change_percent < 10 →
      stop_loss_candidate price_change_percent entry_price = none) ∧
    (10 ≤ price_change_percent →
      stop_loss_candidate price_change_percent entry_price =
        some (entry_price * ((100 + 5 * (⌊price_change_percent / 10⌋ : ℚ)) / 100))) ∧
    stop_loss_candidate (9999 / 1000) entry_price = none ∧
    stop_loss_candidate 10 entry_price = some (entry_price * (105 / 100)) ∧
    stop_loss_candidate (19999 / 1000) entry_price = some (entry_price * (105 / 100)) ∧
    stop_loss_candidate 20 entry_price = some (entry_price * (110 / 100)) := by
  refine ⟨fun h => if_neg (not_le.mpr h), fun h => ?_, ?_, ?_, ?_, ?_⟩
  · rw [stop_loss_candidate, if_pos h,
      calculate_new_stop_loss_eq_floor_formula _ _ (le_trans (by norm_num) h)]
  · rw [stop_loss_candidate, if_neg (by norm_num)]
  · rw [stop_loss_candidate, if_pos (by norm_num),
      calculate_new_stop_loss_eq_floor_formula _ _ (by norm_num)]
    norm_num
  · rw [stop_loss_candidate, if_pos (by norm_num),
      calculate_new_stop_loss_eq_floor_formula _ _ (by norm_num)]
    norm_num
  · rw [stop_loss_candidate, if_pos (by norm_num),
      calculate_new_stop_loss_eq_floor_formula _ _ (by norm_num)]
    norm_num

/-- C3 witness: the policy evaluated at the concrete entry price 100. -/
theorem stop_loss_tier_policy_witness :
    (((100 : ℚ) < 10 → stop_loss_candidate 100 100 = none) ∧
    ((10 : ℚ) ≤ 100 →
      stop_loss_candidate 100 100 = some (100 * ((100 + 5 * (⌊(100 : ℚ) / 10⌋ : ℚ)) / 100))) ∧
    stop_loss_candidate (9999 / 1000) 100 = none ∧
    stop_loss_candidate 10 100 = some (100 * (105 / 100)) ∧
    stop_loss_candidate (19999 / 1000) 100 = some (100 * (105 / 100)) ∧
    stop_loss_candidate 20 100 = some (100 * (110 / 100))) :=
  stop_loss_tier_policy 100 100 (by norm_num)

/-- C1: when `update_stop_loss_order`'s compound operation partially fails
(the cancel succeeded, the new stop submission was rejected), the exception
is swallowed inside `update_stop_loss_order`, so `handle_price_update`
still updates the in-memory `current_stop_loss` (here from 95 to 105) and
enqueues only the success-style stop-loss-update message; no
OrderRejected-class alert is ever enqueued by any outcome. -/
theorem partial_failure_updates_stop_anyway :
    handle_price_update ⟨1, 100, 95, 0⟩ 111 OrderOutcome.rejectedAfterCancel =
      (⟨1, 100, 105, 0⟩, [Msg.stopLossUpdate 105]) ∧
    ∀ o : OrderOutcome, update_stop_loss_order_msgs o = [] := by
  constructor
  · simp only [handle_price_update, update_stop_loss_order_msgs]
    norm_num [calculate_new_stop_loss, decIntDiv]
  · intro o
    rfl

/-- C6 counterexample: for a short position (amount −1, entry 100, stop
105), a favorable 10% fall of the mark price to 90 yields
`price_change_percent = −10` — the code applies no sign inversion — so the
10% gate fails and the tick produces no stop update at all, contradicting
the claim that such a fall triggers the tiered policy and lowers the stop. -/
theorem short_position_fall_counterexample :
    handle_price_update ⟨-1, 100, 105, 0⟩ 90 OrderOutcome.filled =
      (⟨-1, 100, 105, 0⟩, []) ∧
    ((90 : ℚ) - 100) / 100 * 100 = -10 := by
  constructor
  · simp only [handle_price_update]
    norm_num
  · norm_num

/-- C6 amended: `price_change_percent` is computed without any sign
adjustment for shorts, and the update path triggers only on a rise of at
least 10%; hence for a short position every tick at or below the entry
price — in particular every favorable fall — leaves the position record
unchanged and enqueues nothing. -/
theorem short_position_tick_ignored (pos : Position) (price : ℚ) (o : OrderOutcome)
    (hshort : pos.amount < 0) (hentry : 0 < pos.entry_price)
    (hfall : price ≤ pos.entry_price) :
    handle_price_update pos price o = (pos, []) := by
  unfold handle_price_update
  dsimp only
  rw [if_neg]
  intro hge
  have h1 : (price - pos.entry_price) / pos.entry_price ≤ 0 :=
    div_nonpos_iff.mpr (Or.inr ⟨by linarith, hentry.le⟩)
  nlinarith

/-- C6 amended witness: a concrete short at entry 100 with stop 105 and a
15% favorable fall to 85 is left untouched. -/
theorem short_position_tick_ignored_witness :
    handle_price_update ⟨-1, 100, 105, 0⟩ 85 OrderOutcome.filled =
      (⟨-1, 100, 105, 0⟩, []) :=
  short_position_tick_ignored ⟨-1, 100, 105, 0⟩ 85 OrderOutcome.filled
    (by norm_num) (by norm_num) (by norm_num)

/-- C7: reconciliation is idempotent — a second run with an unchanged
active-symbol set issues zero subscribe and zero unsubscribe calls — and
in general no symbol already monitored is ever subscribed again and no
symbol still active is ever unsubscribed. -/
theorem reconcile_idempotent (current monitored : Finset String) :
    (subscribe_call_count (update_websocket_subscriptions current
        (update_websocket_subscriptions current monitored).2).1 = 0 ∧
     unsubscribe_call_count (update_websocket_subscriptions current
        (update_websocket_subscriptions current monitored).2).1 = 0) ∧
    (update_websocket_subscriptions current monitored).1.new_symbols ∩ monitored = ∅ ∧
    (update_websocket_subscriptions current monitored).1.remove_symbols ∩ current = ∅ := by
  refine ⟨⟨?_, ?_⟩, ?_, ?_⟩ <;>
    simp [update_websocket_subscriptions, subscribe_call_count, unsubscribe_call_count,
      Finset.sdiff_self, Finset.sdiff_inter_self]

theorem foldl_fixed {α β : Type} (f : β → α → β) (l : List α)
    (h : ∀ b a, a ∈ l → f b a = b) : ∀ b, l.foldl f b = b := by
  induction l with
  | nil => intro b; rfl
  | cons x xs ih =>
      intro b
      rw [List.foldl_cons, h b x (List.mem_cons_self x xs)]
      exact ih (fun b a ha => h b a (List.mem_cons_of_mem x ha)) b

theorem get_active_positions_all_zero (l : List RawPosition)
    (hl : ∀ p ∈ l, p.positionAmt = 0) :
    get_active_positions (.ok l) = [] := by
  unfold get_active_positions
  exact foldl_fixed _ l (fun b a ha => by simp [hl a ha]) []

/-- C4 counterexample: with one active position (symbol BTCUSDT, already
monitored), a failed fetch does not skip the refresh cycle: the registry
is replaced by the empty map, the monitored set is emptied, and one
unsubscribe call is issued for the still-open position — contrary to the
claim that the prior registry is kept and no unsubscribe happens. -/
theorem refresh_failure_counterexample :
    refresh_cycle ⟨[("BTCUSDT", ⟨1, 100, 95, 5⟩)], {"BTCUSDT"}⟩ (.error "timeout") =
      (⟨[], ∅⟩, ⟨{"BTCUSDT"}, ∅⟩) ∧
    unsubscribe_call_count
      (refresh_cycle ⟨[("BTCUSDT", ⟨1, 100, 95, 5⟩)], {"BTCUSDT"}⟩ (.error "timeout")).2 = 1 := by
  constructor
  · simp [refresh_cycle, get_active_positions, update_websocket_subscriptions,
      registry_symbols]
  · simp [refresh_cycle, get_active_positions, update_websocket_subscriptions,
      registry_symbols, unsubscribe_call_count]

/-- C4 amended: when the fetch fails, `get_active_positions` returns the
empty map and the refresh loop treats that as a genuine position set: if
the registry was already empty the cycle is a no-op, otherwise the
registry is wholesale-replaced by the empty map, the monitored set becomes
empty, and every previously monitored symbol is unsubscribed; the fetch is
retried on the next scheduled tick. -/
theorem refresh_failure_wipes_registry (st : MonitorLoopState) (e : String) :
    refresh_cycle st (.error e) =
      if st.active_positions = [] then (st, ⟨∅, ∅⟩)
      else (⟨[], ∅⟩, ⟨st.monitored_symbols, ∅⟩) := by
  by_cases h : st.active_positions = []
  · simp [refresh_cycle, get_active_positions, h]
  · simp [refresh_cycle, get_active_positions, h, Ne.symm h,
      update_websocket_subscriptions, registry_symbols]

/-- C10: `get_active_positions` is total — any fetch or parsing failure
yields the empty map — and its failure result coincides with the result
for an account whose positions all have zero size, so the caller cannot
distinguish the two. -/
theorem fetch_failure_indistinguishable (e : String) (l : List RawPosition)
    (hl : ∀ p ∈ l, p.positionAmt = 0) :
    get_active_positions (.error e) = [] ∧
    get_active_positions (.ok l) = [] ∧
    get_active_positions (.error e) = get_active_positions (.ok l) := by
  have hok := get_active_positions_all_zero l hl
  refine ⟨rfl, hok, ?_⟩
  rw [hok]
  exact rfl

/-- C10 witness: a failed fetch and a successful fetch of one zero-size
position both yield the empty registry. -/
theorem fetch_failure_indistinguishable_witness :
    get_active_positions (.error "ConnectionError") = [] ∧
    get_active_positions (.ok [⟨"BTCUSDT", 0, 0, 0⟩]) = [] ∧
    get_active_positions (.error "ConnectionError") =
      get_active_positions (.ok [⟨"BTCUSDT", 0, 0, 0⟩]) :=
  fetch_failure_indistinguishable "ConnectionError" [⟨"BTCUSDT", 0, 0, 0⟩]
    (by intro p hp; simp at hp; rw [hp])

/-- C5 counterexample: the delay is computed from the counter *before* it
is incremented, so the wait before the first reconnect attempt is
`min(2^0, 300) = 1` second, not the `min(2^1, 300) = 2` seconds the claim
asserts. -/
theorem backoff_first_attempt_counterexample :
    handle_ws_disconnection 0 = ReconnectStep.attempt 1 1 ∧
    min (2 ^ 1) 300 = 2 ∧ (1 : ℕ) ≠ 2 := by
  decide

/-- C5 amended: the delay slept before reconnect attempt `count + 1` is
`min(2^count, 300)` seconds — i.e. `min(2^(n-1), 300)` before attempt `n` —
so attempts 1 through 5 wait 1, 2, 4, 8, 16 seconds, attempt 10 waits the
300-second cap, and the counter is reset to 0 on every successful
connection. -/
theorem backoff_delay_schedule (count : ℕ) (h : count < MAX_RECONNECT_ATTEMPTS)
    (st : WsState) :
    handle_ws_disconnection count =
      ReconnectStep.attempt (min (2 ^ count) 300) (count + 1) ∧
    (List.range 5).map (fun k => min (2 ^ k) 300) = [1, 2, 4, 8, 16] ∧
    min (2 ^ (10 - 1)) 300 = 300 ∧
    (start_ws_monitor_success st).ws_reconnect_count = 0 := by
  refine ⟨?_, by decide, by decide, rfl⟩
  unfold handle_ws_disconnection
  rw [if_neg (not_le.mpr h)]

/-- C5 amended witness: the tenth and final permitted attempt (counter 9)
waits the 300-second cap. -/
theorem backoff_delay_schedule_witness :
    (handle_ws_disconnection 9 =
      ReconnectStep.attempt (min (2 ^ 9) 300) (9 + 1) ∧
    (List.range 5).map (fun k => min (2 ^ k) 300) = [1, 2, 4, 8, 16] ∧
    min (2 ^ (10 - 1)) 300 = 300 ∧
    (start_ws_monitor_success ⟨7, false⟩).ws_reconnect_count = 0) :=
  backoff_delay_schedule 9 (by decide) ⟨7, false⟩

theorem monitor_iteration_give_up (c : ℕ) (hb : Bool) (oc : AttemptOutcome)
    (hcount : MAX_RECONNECT_ATTEMPTS ≤ c) :
    monitor_iteration ⟨c, false, true⟩ hb oc = (⟨c, false, true⟩, [], 0) := by
  unfold monitor_iteration
  simp [hcount]

/-- C8 counterexample: once the give-up condition holds (counter at
`MAX_RECONNECT_ATTEMPTS`, disconnected, outage already notified), further
supervisor iterations enqueue no message at all — in particular no fatal
alert is ever surfaced on the notification queue, contrary to the claim. -/
theorem give_up_no_fatal_alert :
    (monitor_run ⟨10, false, true⟩
      [(false, .failure), (false, .failure), (false, .failure)]).2.1 = ([] : List Msg) := by
  decide

/-- C8 amended: after `MAX_RECONNECT_ATTEMPTS` consecutive failures the
supervisor is in a terminal condition — every subsequent iteration leaves
the state unchanged, initiates zero reconnect attempts and enqueues zero
messages; the give-up is recorded only in the process log, and no fatal
alert requiring external restart is enqueued. -/
theorem give_up_permanent_and_silent (st : MonitorState)
    (inputs : List (Bool × AttemptOutcome))
    (hcount : MAX_RECONNECT_ATTEMPTS ≤ st.ws_reconnect_count)
    (hconn : st.is_ws_connected = false)
    (hnote : st.disconnect_notified = true) :
    monitor_run st inputs = (st, [], 0) := by
  obtain ⟨c, w, n⟩ := st
  simp only at hconn hnote
  subst hconn hnote
  simp only at hcount
  induction inputs with
  | nil => rfl
  | cons i rest ih =>
      obtain ⟨hb, oc⟩ := i
      unfold monitor_run
      rw [monitor_iteration_give_up c hb oc hcount]
      dsimp only
      rw [ih]
      exact rfl

/-- C8 amended witness: from the concrete give-up state, two further
supervisor cycles change nothing, attempt nothing and enqueue nothing. -/
theorem give_up_permanent_and_silent_witness :
    monitor_run ⟨10, false, true⟩ [(false, .failure), (true, .success)] =
      (⟨10, false, true⟩, [], 0) :=
  give_up_permanent_and_silent ⟨10, false, true⟩ [(false, .failure), (true, .success)]
    (by decide) rfl rfl

/-- C9 counterexample: the message queue has no capacity bound with
drop-oldest behaviour — for every purported capacity, a `put` on a queue
of exactly that length still appends and keeps the oldest element, so the
claimed drop-oldest-on-exhaustion semantics holds for no capacity. -/
theorem queue_not_bounded_drop_oldest :
    ¬ ∃ cap : ℕ, 0 < cap ∧ ∀ q : List Msg, ∀ m : Msg,
        q.length = cap → message_queue_put q m = q.drop 1 ++ [m] := by
  rintro ⟨cap, hpos, h⟩
  have h2 := h (List.replicate cap Msg.wsDisconnect) Msg.wsDisconnect (by simp)
  have h3 := congrArg List.length h2
  simp [message_queue_put] at h3
  omega

/-- C9 amended: the queue is created unbounded (`queue.Queue()` with the
default `maxsize=0`), so enqueue always appends at the tail without
blocking the producer and never drops a message, and the consumer drains
in FIFO order. -/
theorem queue_unbounded_fifo (q : List Msg) (m m2 : Msg) :
    message_queue_put q m = q ++ [m] ∧
    (message_queue_put q m).length = q.length + 1 ∧
    (∀ x ∈ q, x ∈ message_queue_put q m) ∧
    message_queue_get_nowait (m2 :: q) = some (m2, q) ∧
    message_queue_get_nowait ([] : List Msg) = none := by
  refine ⟨rfl, by simp [message_queue_put], ?_, rfl, rfl⟩
  intro x hx
  simp [message_queue_put, hx]

end TgSignals
